import Mathlib

/-
  Verification development for the ServerCraft 2FA / session-trust subsystem.

  The React frontend under src/frontend/src is embedded directly from its
  source (LoginPage.js, TwoFactorSetup.js, App.js).  The FastAPI backend
  (backend/server.py, backend/two_factor.py) is not part of the tree, so its
  operations are modelled from the specification (RFC-6238 TOTP with a
  one-adjacent-step verification window, salted-hash backup codes, 30-day trusted-device tokens,
  and the two-step login state machine).
-/

namespace ServerCraft

/-! ## TOTP engine

Modelled from the spec: the backend module two_factor.py is missing from the
tree; the spec fixes the algorithm as RFC-6238 (HMAC-SHA1 over a moving
30-second time counter, dynamically truncated to a 6-digit decimal code),
verification trying the current step and the adjacent steps with
constant-time comparison of the derived codes. -/

/-- Truncate a natural number to 32 bits. -/
def w32 (n : Nat) : Nat := n % 4294967296

/-- Rotate the 32-bit word `n` left by `s` bits. -/
def rotl (s n : Nat) : Nat := (n * 2 ^ s + n / 2 ^ (32 - s)) % 4294967296

/-- Big-endian byte encoding of `n` on `k` bytes. -/
def toBytesBE (k n : Nat) : List Nat :=
  (List.range k).map (fun i => n / 2 ^ (8 * (k - 1 - i)) % 256)

/-- Group a byte list into big-endian 32-bit words. -/
def bytesToWords : List Nat → List Nat
  | a :: b :: c :: d :: rest =>
      (((a * 256 + b) * 256 + c) * 256 + d) :: bytesToWords rest
  | _ => []

/-- SHA-1 message padding: append 0x80, zero bytes, and the 64-bit bit length. -/
def sha1Pad (msg : List Nat) : List Nat :=
  msg ++ [128] ++ List.replicate ((119 - msg.length % 64) % 64) 0
      ++ toBytesBE 8 (msg.length * 8)

/-- Extend a 16-word block schedule by `k` further words
(W i = rotl 1 (W (i-3) xor W (i-8) xor W (i-14) xor W (i-16))). -/
def sha1Extend (w : List Nat) : Nat → List Nat
  | 0 => w
  | k + 1 =>
      sha1Extend
        (w ++ [rotl 1 (((w.getD (w.length - 3) 0).xor
            ((w.getD (w.length - 8) 0).xor
              ((w.getD (w.length - 14) 0).xor (w.getD (w.length - 16) 0)))))]) k

/-- SHA-1 round function. -/
def sha1F (i b c d : Nat) : Nat :=
  if i < 20 then (b.land c).lor ((4294967295 - b).land d)
  else if i < 40 then b.xor (c.xor d)
  else if i < 60 then ((b.land c).lor (b.land d)).lor (c.land d)
  else b.xor (c.xor d)

/-- SHA-1 round constants. -/
def sha1K (i : Nat) : Nat :=
  if i < 20 then 1518500249
  else if i < 40 then 1859775393
  else if i < 60 then 2400959708
  else 3395469782

/-- Run the 80 SHA-1 rounds of one block over state (a, b, c, d, e). -/
def sha1Rounds (ws : List Nat) (st : Nat × Nat × Nat × Nat × Nat) :
    Nat × Nat × Nat × Nat × Nat :=
  ((List.range 80).zip ws).foldl
    (fun st p =>
      match st with
      | (a, b, c, d, e) =>
          (w32 (rotl 5 a + sha1F p.1 b c d + e + sha1K p.1 + p.2),
            a, rotl 30 b, c, d))
    st

/-- Compress one 64-byte chunk into the running hash state. -/
def sha1Chunk (h : List Nat) (chunk : List Nat) : List Nat :=
  let ws := sha1Extend (bytesToWords chunk) 64
  let h0 := h.getD 0 0
  let h1 := h.getD 1 0
  let h2 := h.getD 2 0
  let h3 := h.getD 3 0
  let h4 := h.getD 4 0
  match sha1Rounds ws (h0, h1, h2, h3, h4) with
  | (a, b, c, d, e) => [w32 (h0 + a), w32 (h1 + b), w32 (h2 + c), w32 (h3 + d), w32 (h4 + e)]

/-- Fold the hash state over `n` consecutive 64-byte chunks of `l`. -/
def sha1Process (h : List Nat) : Nat → List Nat → List Nat
  | 0, _ => h
  | n + 1, l => sha1Process (sha1Chunk h (l.take 64)) n (l.drop 64)

/-- SHA-1 digest (20 bytes) of a byte list. -/
def sha1 (msg : List Nat) : List Nat :=
  let p := sha1Pad msg
  let h := sha1Process [1732584193, 4023233417, 2562383102, 271733878, 3285377520]
      (p.length / 64) p
  (h.map (toBytesBE 4)).flatten

/-- HMAC-SHA1 with the standard 64-byte block, ipad 0x36, opad 0x5c. -/
def hmacSha1 (key msg : List Nat) : List Nat :=
  let k0 := if 64 < key.length then sha1 key else key
  let kp := k0 ++ List.replicate (64 - k0.length) 0
  sha1 ((kp.map (Nat.xor 92)) ++ sha1 ((kp.map (Nat.xor 54)) ++ msg))

/-- RFC-4226 dynamic truncation of a 20-byte digest to a 6-digit code. -/
def dynamicTruncate (digest : List Nat) : Nat :=
  let o := (digest.getD 19 0).land 15
  (((digest.getD o 0).land 127) * 16777216 + digest.getD (o + 1) 0 * 65536
      + digest.getD (o + 2) 0 * 256 + digest.getD (o + 3) 0) % 1000000

/-- HOTP code for a counter value (RFC 4226). -/
def hotp (key : List Nat) (counter : Nat) : Nat :=
  dynamicTruncate (hmacSha1 key (toBytesBE 8 counter))

/-- The 30-second time step of a Unix time. -/
def timeStep (t : Nat) : Nat := t / 30

/-- TOTP code for secret `key` at Unix time `t` (RFC 6238, 30-second step). -/
def totp (key : List Nat) (t : Nat) : Nat := hotp key (timeStep t)

/-- The six decimal digits of a 6-digit code, most significant first. -/
def codeDigits (n : Nat) : List Nat :=
  [n / 100000 % 10, n / 10000 % 10, n / 1000 % 10, n / 100 % 10, n / 10 % 10, n % 10]

/-- Constant-time comparison of two 6-digit codes: fold a running conjunction
over all digit pairs instead of short-circuiting on the first mismatch. -/
def constantTimeEq (a b : Nat) : Bool :=
  ((codeDigits a).zip (codeDigits b)).foldl (fun acc p => acc && (p.1 == p.2)) true

/-- TOTP verification: try the current time step and the immediately adjacent
steps, comparing each derived code in constant time. -/
def verifyTotp (key : List Nat) (code t : Nat) : Bool :=
  constantTimeEq code (hotp key (timeStep t - 1))
    || constantTimeEq code (hotp key (timeStep t))
    || constantTimeEq code (hotp key (timeStep t + 1))

/-- The RFC-6238 test secret from the spec scenario, base32 JBSWY3DPEHPK3PXP. -/
def scenarioKey : List Nat := [72, 101, 108, 108, 111, 33, 222, 173, 190, 239]

/-! ## Backup Code Manager

Modelled from the spec: backend code absent from the tree.  Codes are stored
only as salted hashes; matching a presented code against a stored salted hash
is modelled by applying an explicit hash function to the presented code and
comparing for equality in the stored set. -/

/-- Generation draws exactly 10 codes from the injected randomness source. -/
def generateBackupCodes (rng : Nat → String) : List String :=
  (List.range 10).map rng

/-- The persisted backup-code state right after setup or regenerate: only the
salted hash of each generated code is retained. -/
def setupStoredHashes (hash : String → String) (rng : Nat → String) : List String :=
  (generateBackupCodes rng).map hash

/-- Consume a backup code: look up the hash of the presented code among the
remaining stored hashes; on match remove the matching entry, on no match fail. -/
def consumeBackupCode (hash : String → String) (stored : List String)
    (code : String) : Option (List String) :=
  if hash code ∈ stored then some (stored.erase (hash code)) else none

/-! ## Trusted Device Manager

Modelled from the spec: backend code absent from the tree.  A device token is
owned by one identity, with fixed creation time and absolute expiry at
creation plus 30 days; validation succeeds only for an existing token of the
claimed identity before its expiry and never renews it. -/

structure TrustedDevice where
  token : String
  identity : String
  createdAt : Nat
deriving DecidableEq, Repr

/-- Absolute expiry of a trusted device token: creation plus 30 days. -/
def deviceExpiry (d : TrustedDevice) : Nat := d.createdAt + 30 * 86400

/-- Validate a presented device token for a claimed identity at time `now`. -/
def validateDevice (devices : List TrustedDevice) (idClaim tok : String)
    (now : Nat) : Bool :=
  devices.any fun d => d.token == tok && d.identity == idClaim && decide (now < deviceExpiry d)

/-! ## Identity record and login state machine

Modelled from the spec: backend code absent from the tree.  The external
identity store's password check is modelled as equality against the stored
credential; the external access-token issuer and the random sources are
modelled as injected fresh strings. -/

inductive TwoFactorState
  | disabled
  | pendingEnrollment
  | enabled
deriving DecidableEq, Repr

structure IdentityRecord where
  userId : String
  password : String
  twoFactorState : TwoFactorState
  totpSecret : Option (List Nat)
  backupCodeHashes : List String
  trustedDevices : List TrustedDevice
deriving DecidableEq, Repr

/-- Temp (second-factor-pending) token binding one identity to one login
attempt; it carries no access rights, only the right to submit a second
factor for this attempt. -/
structure TempToken where
  token : String
  identity : String
  issuedAt : Nat
deriving DecidableEq, Repr

inductive LoginStep1Result
  | authenticated (accessToken : String)
  | requires2fa (tempToken : String)
  | invalidCredentials
deriving DecidableEq, Repr

/-- Whether a supplied device token validates for this identity. -/
def deviceTokenOk (rec : IdentityRecord) (deviceTok : Option String) (now : Nat) : Bool :=
  match deviceTok with
  | some dt => validateDevice rec.trustedDevices rec.userId dt now
  | none => false

/-- Login step 1: check the password; on success either authenticate directly
(2FA disabled or a valid device token supplied) or mint a temp token and
demand a second factor.  The identity record is not modified; in particular a
validated device token keeps its original creation time and expiry. -/
def loginStep1 (rec : IdentityRecord) (password : String) (deviceTok : Option String)
    (now : Nat) (freshTemp freshAccess : String) :
    LoginStep1Result × Option TempToken :=
  if password ≠ rec.password then (.invalidCredentials, none)
  else if rec.twoFactorState = .disabled ∨ deviceTokenOk rec deviceTok now then
    (.authenticated freshAccess, none)
  else (.requires2fa freshTemp, some ⟨freshTemp, rec.userId, now⟩)

/-- An in-progress login attempt awaiting its second factor. -/
structure LoginAttempt where
  record : IdentityRecord
  tempToken : TempToken
deriving DecidableEq, Repr

inductive LoginStep2Result
  | authenticated (accessToken : String) (deviceToken : Option String)
  | expiredTempToken
  | invalidSecondFactor
deriving DecidableEq, Repr

/-- Check a submitted code against the active TOTP secret (parse the decimal
digits, then verify within the one-step window). -/
def totpCodeOk (secret : Option (List Nat)) (code : String) (now : Nat) : Bool :=
  match secret, code.toNat? with
  | some key, some n => verifyTotp key n now
  | _, _ => false

/-- Issue a trusted device token when the caller opted in. -/
def maybeIssueDevice (rec : IdentityRecord) (remember : Bool) (now : Nat)
    (freshDevice : String) : Option String × IdentityRecord :=
  if remember then
    (some freshDevice,
      { rec with trustedDevices := ⟨freshDevice, rec.userId, now⟩ :: rec.trustedDevices })
  else (none, rec)

/-- Login step 2: validate the temp token for this attempt and its freshness
first, then check the second factor (TOTP code, else backup code, consuming
it).  On failure the attempt is left unchanged so the caller may retry with
the same temp token until it expires. -/
def loginStep2 (hash : String → String) (tempTTL : Nat) (att : LoginAttempt)
    (presentedTemp code : String) (remember : Bool) (now : Nat)
    (freshAccess freshDevice : String) : LoginStep2Result × LoginAttempt :=
  if presentedTemp = att.tempToken.token ∧ now < att.tempToken.issuedAt + tempTTL then
    if totpCodeOk att.record.totpSecret code now then
      let p := maybeIssueDevice att.record remember now freshDevice
      (.authenticated freshAccess p.1, { att with record := p.2 })
    else
      match consumeBackupCode hash att.record.backupCodeHashes code with
      | some remaining =>
          let p := maybeIssueDevice { att.record with backupCodeHashes := remaining }
              remember now freshDevice
          (.authenticated freshAccess p.1, { att with record := p.2 })
      | none => (.invalidSecondFactor, att)
  else (.expiredTempToken, att)

inductive DisableResult
  | ok (rec : IdentityRecord)
  | invalidCredentials
  | invalidSecondFactor
  | notEnrolled
deriving DecidableEq, Repr

/-- Disable 2FA: requires the password and a valid second factor (TOTP code or
an unconsumed backup code); on success deletes the active secret, deletes all
backup codes, revokes all trusted device tokens, and sets the state back to
disabled. -/
def disable2fa (hash : String → String) (rec : IdentityRecord)
    (code password : String) (now : Nat) : DisableResult :=
  if rec.twoFactorState ≠ .enabled then .notEnrolled
  else if password ≠ rec.password then .invalidCredentials
  else if totpCodeOk rec.totpSecret code now
      || (consumeBackupCode hash rec.backupCodeHashes code).isSome then
    .ok { rec with
          twoFactorState := .disabled
          totpSecret := none
          backupCodeHashes := []
          trustedDevices := [] }
  else .invalidSecondFactor

/-- Setup response shape.  Per src/test_result.md the backend returns a base32
secret, a base64 QR code data URI rendered by the backend, and the 10
plaintext backup codes. -/
structure SetupResponse where
  secret : String
  qr_code : String
  backup_codes : List String
deriving DecidableEq, Repr

/-- Modelled from the spec and src/test_result.md: the 2FA setup operation.
The QR code field is a PNG image rendered by the backend and shipped as a
base64 data URI (its pixel payload is abstracted as `png`). -/
def twoFactorSetup (rng : Nat → String) (secretB32 png : String) : SetupResponse :=
  { secret := secretB32
    qr_code := "data:image/png;base64," ++ png
    backup_codes := generateBackupCodes rng }

/-- Whether a string is an otpauth enrollment URI (the format an external QR
renderer would consume). -/
def isEnrollmentUri (s : String) : Bool := "otpauth".data.isPrefixOf s.data

/-- Whether a string is an inline image data URI (a pre-rendered image). -/
def isDataImageUri (s : String) : Bool := "data:image/".data.isPrefixOf s.data

/-! ## Frontend: LoginPage.js (embedded from source) -/

/-- Component state of LoginPage (src/frontend/src/pages/LoginPage.js). -/
structure LoginFormState where
  loginEmail : String
  loginPassword : String
  totpToken : String
  rememberDevice : Bool
  requires2FA : Bool
  tempToken : String
  deviceToken : String
deriving DecidableEq, Repr

/-- Body of the POST to /auth/login built by handleLogin
(LoginPage.js lines 38 to 44). -/
structure LoginRequestBody where
  email : String
  password : String
  totp_token : Option String
  remember_device : Bool
  device_token : Option String
deriving DecidableEq, Repr

/-- handleLogin request construction: email, password, totp_token when in the
second-factor phase, remember_device, and the saved device token when
non-empty.  There is no temp_token field in the payload. -/
def buildLoginRequest (s : LoginFormState) : LoginRequestBody :=
  { email := s.loginEmail
    password := s.loginPassword
    totp_token := if s.requires2FA then some s.totpToken else none
    remember_device := s.rememberDevice
    device_token := if s.deviceToken = "" then none else some s.deviceToken }

/-- Every string value carried by the request body. -/
def requestStrings (b : LoginRequestBody) : List String :=
  [b.email, b.password]
    ++ (match b.totp_token with | some s => [s] | none => [])
    ++ (match b.device_token with | some s => [s] | none => [])

/-- The login response fields the client reads (LoginPage.js lines 46 to 60). -/
structure LoginResponse where
  requires_2fa : Bool
  temp_token : String
  device_token : Option String
  access_token : String
  user : String
deriving DecidableEq, Repr

/-- localStorage keys touched by the login flow. -/
structure LocalStorage where
  token : Option String
  user : Option String
  device_token : Option String
deriving DecidableEq, Repr

/-- Observable outcome of one handleLogin round trip on the client. -/
structure ClientLoginOutcome where
  form : LoginFormState
  storage : LocalStorage
  loginInvoked : Bool
  authToken : Option String
  authUser : Option String
  navigatedHome : Bool
deriving DecidableEq, Repr

/-- handleLogin success path (LoginPage.js lines 46 to 62): when the response
says requires_2fa, only the component state changes (requires2FA set, temp
token remembered) and the function returns; otherwise the device token is
saved when present and App.js login stores the access token and user in
localStorage and context, then the client navigates home. -/
def handleLoginResponse (s : LoginFormState) (ls : LocalStorage)
    (authToken authUser : Option String) (resp : LoginResponse) : ClientLoginOutcome :=
  if resp.requires_2fa then
    { form := { s with requires2FA := true, tempToken := resp.temp_token }
      storage := ls
      loginInvoked := false
      authToken := authToken
      authUser := authUser
      navigatedHome := false }
  else
    let ls1 := match resp.device_token with
      | some d => { ls with device_token := some d }
      | none => ls
    { form := s
      storage := { ls1 with token := some resp.access_token, user := some resp.user }
      loginInvoked := true
      authToken := some resp.access_token
      authUser := some resp.user
      navigatedHome := true }

/-- handleLogin error path (LoginPage.js lines 63 to 67): a failed request
only surfaces a toast; component state, localStorage and auth context are
untouched. -/
def handleLoginFailure (s : LoginFormState) (ls : LocalStorage)
    (authToken authUser : Option String) : ClientLoginOutcome :=
  { form := s
    storage := ls
    loginInvoked := false
    authToken := authToken
    authUser := authUser
    navigatedHome := false }

/-! ## Frontend: TwoFactorSetup.js (embedded from source) -/

/-- Strip every non-digit character, as the onChange handlers do with
value.replace over the non-digit class (TwoFactorSetup.js lines 274 and 453). -/
def stripNonDigits (s : String) : String := ⟨s.data.filter Char.isDigit⟩

/-- The maxLength input attribute: the DOM caps the field value at `n`
characters (TwoFactorSetup.js lines 272 and 451). -/
def domMaxLength (n : Nat) (s : String) : String := ⟨s.data.take n⟩

/-- The verification-code field value after an edit: the DOM-capped value with
all non-digits stripped by the onChange handler. -/
def codeInputChange (domValue : String) : String :=
  stripNonDigits (domMaxLength 6 domValue)

/-- The Enable 2FA button is enabled unless loading or the code field does not
hold exactly 6 characters (TwoFactorSetup.js line 310). -/
def enableButtonEnabled (loading : Bool) (verificationToken : String) : Bool :=
  !loading && verificationToken.length == 6

/-- The Disable 2FA button additionally requires a non-empty password
(TwoFactorSetup.js line 458). -/
def disableButtonEnabled (loading : Bool) (password verificationToken : String) : Bool :=
  !loading && !(password == "") && verificationToken.length == 6

/-- Component state of the setup wizard. -/
structure TwoFactorSetupState where
  step : Nat
  qrCode : String
  secret : String
  backupCodes : List String
deriving DecidableEq, Repr

/-- handleSetup2FA success path (TwoFactorSetup.js lines 50 to 53): store the
response's qr_code, secret and backup_codes and move to step 2. -/
def handleSetup2FAResponse (st : TwoFactorSetupState) (resp : SetupResponse) :
    TwoFactorSetupState :=
  { st with
    qrCode := resp.qr_code
    secret := resp.secret
    backupCodes := resp.backup_codes
    step := 2 }


/-- Step 2 renders the stored qrCode string directly as the img src
(TwoFactorSetup.js line 220); the client performs no QR generation. -/
def renderedQrImageSrc (st : TwoFactorSetupState) : String := st.qrCode

/-! ## Frontend: App.js router (embedded from source) -/

inductive PanelPage
  | dashboard
  | servers
  | nodes
  | users
  | settings
deriving DecidableEq, Repr

inductive RouteResult
  | loginPage
  | panel (p : PanelPage)
  | redirect (target : String)
  | noRoute
deriving DecidableEq, Repr

/-- The route table of App.js (lines 64 to 71): /login renders the login page
without a token and redirects home with one; every other declared route
renders its panel page with a token and redirects to /login without one. -/
def route (token : Option String) (path : String) : RouteResult :=
  if path = "/login" then
    if token.isNone then .loginPage else .redirect "/"
  else if path = "/" then
    if token.isSome then .panel .dashboard else .redirect "/login"
  else if path = "/servers" then
    if token.isSome then .panel .servers else .redirect "/login"
  else if path = "/nodes" then
    if token.isSome then .panel .nodes else .redirect "/login"
  else if path = "/users" then
    if token.isSome then .panel .users else .redirect "/login"
  else if path = "/settings" then
    if token.isSome then .panel .settings else .redirect "/login"
  else .noRoute

/-! ## Concrete fixtures used by the witnesses -/

def sampleHash (s : String) : String := "h-" ++ s

def sampleCodes : List String :=
  ["bk01", "bk02", "bk03", "bk04", "bk05", "bk06", "bk07", "bk08", "bk09", "bk10"]

def sampleRng (i : Nat) : String := sampleCodes.getD i ""

def sampleDevice : TrustedDevice := ⟨"devtok-1", "user-1", 1000⟩

def sampleRecord : IdentityRecord :=
  { userId := "user-1"
    password := "correct-horse"
    twoFactorState := .enabled
    totpSecret := some scenarioKey
    backupCodeHashes := ["h-bk01", "h-bk02"]
    trustedDevices := [sampleDevice] }

def sampleNoTotpRecord : IdentityRecord :=
  { userId := "user-1"
    password := "correct-horse"
    twoFactorState := .enabled
    totpSecret := none
    backupCodeHashes := ["h-bk02"]
    trustedDevices := [] }

def sampleAttempt : LoginAttempt := ⟨sampleNoTotpRecord, ⟨"temp-1", "user-1", 5000⟩⟩

def sampleLoginForm : LoginFormState :=
  { loginEmail := "admin@example.com"
    loginPassword := "hunter2"
    totpToken := "123456"
    rememberDevice := false
    requires2FA := true
    tempToken := "temp-abc"
    deviceToken := "" }

def sample2FAResponse : LoginResponse :=
  { requires_2fa := true
    temp_token := "temp-abc"
    device_token := none
    access_token := ""
    user := "" }

/-! ## Helper lemmas -/

lemma constantTimeEq_iff (a b : Nat) :
    constantTimeEq a b = true ↔ a % 1000000 = b % 1000000 := by
  simp only [constantTimeEq, codeDigits, List.zip_cons_cons, List.zip_nil_right,
    List.foldl_cons, List.foldl_nil, Bool.true_and, Bool.and_eq_true, beq_iff_eq]
  omega

lemma constantTimeEq_self (a : Nat) : constantTimeEq a a = true :=
  (constantTimeEq_iff a a).mpr rfl

lemma hotp_lt (key : List Nat) (c : Nat) : hotp key c < 1000000 :=
  Nat.mod_lt _ (by norm_num)

lemma verifyTotp_eq_true_iff (key : List Nat) (code t : Nat) (h : code < 1000000) :
    verifyTotp key code t = true ↔
      code = hotp key (timeStep t - 1) ∨ code = hotp key (timeStep t) ∨
        code = hotp key (timeStep t + 1) := by
  have h1 := hotp_lt key (timeStep t - 1)
  have h2 := hotp_lt key (timeStep t)
  have h3 := hotp_lt key (timeStep t + 1)
  simp only [verifyTotp, Bool.or_eq_true, constantTimeEq_iff,
    Nat.mod_eq_of_lt h, Nat.mod_eq_of_lt h1, Nat.mod_eq_of_lt h2, Nat.mod_eq_of_lt h3]
  exact or_assoc

lemma verifyTotp_accepts_adjacent (key : List Nat) (t t' : Nat)
    (h : timeStep t' = timeStep t - 1 ∨ timeStep t' = timeStep t ∨
      timeStep t' = timeStep t + 1) :
    verifyTotp key (totp key t') t = true := by
  unfold verifyTotp totp
  rcases h with h | h | h <;> rw [h] <;>
    simp only [constantTimeEq_self, Bool.true_or, Bool.or_true]

/-! ## Claims -/

/-- C1: the claim says the second-factor submission presents the Temp Token
(which alone authorizes it).  In the code, handleLogin re-posts email,
password, totp_token, remember_device and device_token; the stored temp token
value appears nowhere in the request payload. -/
theorem temp_token_never_in_request (s : LoginFormState)
    (h1 : s.tempToken ≠ s.loginEmail) (h2 : s.tempToken ≠ s.loginPassword)
    (h3 : s.tempToken ≠ s.totpToken) (h4 : s.tempToken ≠ s.deviceToken) :
    s.tempToken ∉ requestStrings (buildLoginRequest s) := by
  by_cases hr : s.requires2FA <;> by_cases hd : s.deviceToken = "" <;>
    simp [requestStrings, buildLoginRequest, hr, hd, h1, h2, h3, h4]

/-- Witness for C1: the concrete second-factor submission after step 1
returned the temp token temp-abc does not transmit that token. -/
theorem temp_token_never_in_request_witness :
    sampleLoginForm.tempToken ∉ requestStrings (buildLoginRequest sampleLoginForm) :=
  temp_token_never_in_request sampleLoginForm (by decide) (by decide) (by decide) (by decide)

set_option maxRecDepth 2000000 in
/-- C2 counterexample: with the spec scenario secret, the code computed at
Unix time 33270 (step 1109) is accepted by verification at Unix time 14760
(step 492), 617 steps away, because the two steps yield the same 6-digit
code.  The claim that any code computed at a step two or more away is
rejected is therefore false as stated. -/
theorem totp_far_code_accepted :
    timeStep 14760 + 2 ≤ timeStep 33270 ∧
    verifyTotp scenarioKey (totp scenarioKey 33270) 14760 = true := by
  decide

/-- C2 (amended): verification accepts the code computed at the current
30-second step or at either immediately adjacent step, and accepts a
presented 6-digit code exactly when it equals one of the three codes of that
window — so a code computed two or more steps away is rejected unless it
coincides with a window code. -/
theorem totp_verify_window (key : List Nat) (code t t' : Nat) :
    ((timeStep t' = timeStep t - 1 ∨ timeStep t' = timeStep t ∨
        timeStep t' = timeStep t + 1) →
      verifyTotp key (totp key t') t = true) ∧
    (code < 1000000 →
      (verifyTotp key code t = true ↔
        (code = hotp key (timeStep t - 1) ∨ code = hotp key (timeStep t) ∨
          code = hotp key (timeStep t + 1)))) :=
  ⟨verifyTotp_accepts_adjacent key t t', verifyTotp_eq_true_iff key code t⟩

/-- Witness for C2: the code of the same step is accepted at time 45, and the
window characterization holds for the concrete code 282760. -/
theorem totp_verify_window_witness :
    verifyTotp scenarioKey (totp scenarioKey 59) 45 = true ∧
    (verifyTotp scenarioKey 282760 45 = true ↔
      (282760 = hotp scenarioKey (timeStep 45 - 1) ∨
        282760 = hotp scenarioKey (timeStep 45) ∨
        282760 = hotp scenarioKey (timeStep 45 + 1))) :=
  ⟨(totp_verify_window scenarioKey 282760 45 59).1 (by decide),
    (totp_verify_window scenarioKey 282760 45 59).2 (by decide)⟩

/-- C3: a backup code authenticates at most once — after a successful consume
the matching hash is gone, consuming the identical code again fails, the
stored set only shrinks (a subset one element smaller), a repeat of the same
code at login step 2 yields InvalidSecondFactor with the attempt unchanged,
and regeneration replaces the store with a fresh set of 10. -/
theorem backup_code_single_use (hash : String → String) (stored stored' : List String)
    (code : String) (rng : Nat → String) (att : LoginAttempt)
    (tempTTL now : Nat) (remember : Bool) (freshAccess freshDevice : String)
    (hnd : stored.Nodup)
    (h : consumeBackupCode hash stored code = some stored') :
    hash code ∉ stored' ∧
    consumeBackupCode hash stored' code = none ∧
    stored' ⊆ stored ∧
    stored'.length + 1 = stored.length ∧
    (att.record.backupCodeHashes = stored' →
      now < att.tempToken.issuedAt + tempTTL →
      totpCodeOk att.record.totpSecret code now = false →
      loginStep2 hash tempTTL att att.tempToken.token code remember now
        freshAccess freshDevice = (.invalidSecondFactor, att)) ∧
    (setupStoredHashes hash rng).length = 10 := by
  have hmem : hash code ∈ stored := by
    by_contra hmem
    simp [consumeBackupCode, hmem] at h
  have hst : stored' = stored.erase (hash code) := by
    simp only [consumeBackupCode, if_pos hmem, Option.some.injEq] at h
    exact h.symm
  subst hst
  have hnotmem : hash code ∉ stored.erase (hash code) := hnd.not_mem_erase
  have hnone : consumeBackupCode hash (stored.erase (hash code)) code = none := by
    simp [consumeBackupCode, hnotmem]
  refine ⟨hnotmem, hnone, List.erase_subset _ _, ?_, ?_, ?_⟩
  · have := List.length_erase_of_mem hmem
    have : 1 ≤ stored.length := List.length_pos.mpr (List.ne_nil_of_mem hmem)
    omega
  · intro heq hfresh htotp
    simp [loginStep2, hfresh, htotp, heq, hnone]
  · simp [setupStoredHashes, generateBackupCodes]

/-- Witness for C3: consuming bk01 from the two-hash store removes it,
repeating bk01 fails both at the manager and at login step 2, and the
regenerated store holds 10 hashes. -/
theorem backup_code_single_use_witness :
    sampleHash "bk01" ∉ (["h-bk02"] : List String) ∧
    consumeBackupCode sampleHash ["h-bk02"] "bk01" = none ∧
    loginStep2 sampleHash 600 sampleAttempt "temp-1" "bk01" false 5100 "acc" "dev"
      = (.invalidSecondFactor, sampleAttempt) ∧
    (setupStoredHashes sampleHash sampleRng).length = 10 := by
  have w := backup_code_single_use sampleHash ["h-bk01", "h-bk02"] ["h-bk02"] "bk01"
    sampleRng sampleAttempt 600 5100 false "acc" "dev" (by decide) (by decide)
  exact ⟨w.1, w.2.1, w.2.2.2.2.1 rfl (by decide) rfl, w.2.2.2.2.2⟩

/-- C4: with the password and a valid second factor (a TOTP code or an
unconsumed backup code), disable succeeds and the resulting record has no
secret, no backup codes, no trusted devices, and state Disabled. -/
theorem disable_clears_state (hash : String → String) (rec : IdentityRecord)
    (code password : String) (now : Nat)
    (hen : rec.twoFactorState = .enabled)
    (hpw : password = rec.password)
    (hfactor : totpCodeOk rec.totpSecret code now = true ∨ hash code ∈ rec.backupCodeHashes) :
    disable2fa hash rec code password now =
      .ok { rec with
            twoFactorState := .disabled
            totpSecret := none
            backupCodeHashes := []
            trustedDevices := [] } := by
  have hsf : (totpCodeOk rec.totpSecret code now
      || (consumeBackupCode hash rec.backupCodeHashes code).isSome) = true := by
    rcases hfactor with h | h
    · simp [h]
    · simp [consumeBackupCode, h]
  simp [disable2fa, hen, hpw, hsf]

/-- Witness for C4: disabling with the password and the unconsumed backup
code bk01 clears the secret, the codes, the devices, and the state. -/
theorem disable_clears_state_witness :
    disable2fa sampleHash sampleRecord "bk01" "correct-horse" 99999 =
      .ok { sampleRecord with
            twoFactorState := .disabled
            totpSecret := none
            backupCodeHashes := []
            trustedDevices := [] } :=
  disable_clears_state sampleHash sampleRecord "bk01" "correct-horse" 99999 rfl rfl
    (Or.inr (by decide))

/-- C6: a correct password together with a device token that validates for
the identity authenticates directly — step 1 returns an access token and no
temp token — and a device token validates exactly when it exists for the
claimed identity and now is strictly before its creation time plus 30 days;
validation is a pure read that renews nothing. -/
theorem device_token_bypasses_2fa (rec : IdentityRecord) (password dt : String)
    (now : Nat) (freshTemp freshAccess : String)
    (hpw : password = rec.password)
    (hdev : validateDevice rec.trustedDevices rec.userId dt now = true) :
    loginStep1 rec password (some dt) now freshTemp freshAccess
      = (.authenticated freshAccess, none) ∧
    (∀ (devices : List TrustedDevice) (idClaim tok : String) (n : Nat),
      validateDevice devices idClaim tok n = true ↔
        ∃ d ∈ devices, d.token = tok ∧ d.identity = idClaim ∧
          n < d.createdAt + 30 * 86400) := by
  constructor
  · simp [loginStep1, hpw, deviceTokenOk, hdev]
  · intro devices idClaim tok n
    simp [validateDevice, deviceExpiry, List.any_eq_true, Bool.and_eq_true,
      and_assoc]

/-- Witness for C6: the stored device token issued at time 1000 authenticates
directly at time 2000. -/
theorem device_token_bypasses_2fa_witness :
    loginStep1 sampleRecord "correct-horse" (some "devtok-1") 2000 "tmp" "acc"
      = (.authenticated "acc", none) :=
  (device_token_bypasses_2fa sampleRecord "correct-horse" "devtok-1" 2000 "tmp" "acc"
    rfl (by decide)).1

/-- C7: when the password succeeds but a second factor is required, step 1
returns requires_2fa with a freshly minted temp token and no access token,
and the client stores only that temp token: login() is not invoked,
localStorage and the auth context are unchanged. -/
theorem requires2fa_issues_no_access (rec : IdentityRecord) (password : String)
    (deviceTok : Option String) (now : Nat) (freshTemp freshAccess : String)
    (s : LoginFormState) (ls : LocalStorage) (authToken authUser : Option String)
    (resp : LoginResponse)
    (hpw : password = rec.password)
    (hstate : rec.twoFactorState ≠ .disabled)
    (hdev : deviceTokenOk rec deviceTok now = false)
    (hr : resp.requires_2fa = true) :
    loginStep1 rec password deviceTok now freshTemp freshAccess
      = (.requires2fa freshTemp, some ⟨freshTemp, rec.userId, now⟩) ∧
    handleLoginResponse s ls authToken authUser resp =
      { form := { s with requires2FA := true, tempToken := resp.temp_token }
        storage := ls
        loginInvoked := false
        authToken := authToken
        authUser := authUser
        navigatedHome := false } := by
  constructor
  · simp [loginStep1, hpw, hstate, hdev]
  · simp [handleLoginResponse, hr]

/-- Witness for C7: an enabled identity with no device token gets a temp
token, and the client round trip records it without touching storage. -/
theorem requires2fa_issues_no_access_witness :
    loginStep1 sampleRecord "correct-horse" none 7000 "temp-abc" "acc"
      = (.requires2fa "temp-abc", some ⟨"temp-abc", "user-1", 7000⟩) ∧
    handleLoginResponse sampleLoginForm ⟨none, none, none⟩ none none sample2FAResponse =
      { form := { sampleLoginForm with requires2FA := true, tempToken := "temp-abc" }
        storage := ⟨none, none, none⟩
        loginInvoked := false
        authToken := none
        authUser := none
        navigatedHome := false } :=
  requires2fa_issues_no_access sampleRecord "correct-horse" none 7000 "temp-abc" "acc"
    sampleLoginForm ⟨none, none, none⟩ none none sample2FAResponse rfl (by decide) rfl rfl

/-- C8: when the second factor check fails, step 2 returns
InvalidSecondFactor and the attempt — including its temp token — is
unchanged; any retry with the same temp token before expiry is not rejected
as ExpiredTempToken; and on the client an error response leaves the form,
localStorage and auth context untouched. -/
theorem second_factor_failure_preserves_attempt (hash : String → String)
    (tempTTL : Nat) (att : LoginAttempt) (code : String) (remember : Bool)
    (now : Nat) (freshAccess freshDevice : String)
    (s : LoginFormState) (ls : LocalStorage) (authToken authUser : Option String)
    (hfresh : now < att.tempToken.issuedAt + tempTTL)
    (htotp : totpCodeOk att.record.totpSecret code now = false)
    (hbackup : consumeBackupCode hash att.record.backupCodeHashes code = none) :
    loginStep2 hash tempTTL att att.tempToken.token code remember now
      freshAccess freshDevice = (.invalidSecondFactor, att) ∧
    (∀ (code2 : String) (remember2 : Bool) (now2 : Nat) (fa2 fd2 : String),
      now2 < att.tempToken.issuedAt + tempTTL →
      (loginStep2 hash tempTTL att att.tempToken.token code2 remember2 now2
        fa2 fd2).1 ≠ .expiredTempToken) ∧
    handleLoginFailure s ls authToken authUser =
      { form := s
        storage := ls
        loginInvoked := false
        authToken := authToken
        authUser := authUser
        navigatedHome := false } := by
  refine ⟨?_, ?_, rfl⟩
  · simp [loginStep2, hfresh, htotp, hbackup]
  · intro code2 remember2 now2 fa2 fd2 hfresh2
    simp only [loginStep2]
    split
    · split
      · simp
      · split <;> simp
    · next hc =>
        simp only [not_and, not_lt, forall_const] at hc
        omega

/-- Witness for C8: a wrong code leaves the attempt intact and a later retry
with the same temp token is still processed. -/
theorem second_factor_failure_preserves_attempt_witness :
    loginStep2 sampleHash 600 sampleAttempt "temp-1" "nope" false 5100 "acc" "dev"
      = (.invalidSecondFactor, sampleAttempt) ∧
    (loginStep2 sampleHash 600 sampleAttempt "temp-1" "bk02" false 5200 "acc" "dev").1
      ≠ .expiredTempToken := by
  have w := second_factor_failure_preserves_attempt sampleHash 600 sampleAttempt
    "nope" false 5100 "acc" "dev" sampleLoginForm ⟨none, none, none⟩ none none
    (by decide) rfl (by decide)
  exact ⟨w.1, w.2.1 "bk02" false 5200 "acc" "dev" (by decide)⟩

/-- C5 counterexample: the setup response's QR field is a backend-rendered
PNG image shipped as a base64 data URI, not an enrollment URI for external
QR rendering, and the client displays that string verbatim as the image
source — so the QR image is produced inside the subsystem, contrary to the
claim. -/
theorem setup_qr_is_backend_image :
    renderedQrImageSrc (handleSetup2FAResponse ⟨1, "", "", []⟩
        (twoFactorSetup sampleRng "JBSWY3DPEHPK3PXP" "iVBORw0KGgoAAAANSUhEUg"))
      = "data:image/png;base64,iVBORw0KGgoAAAANSUhEUg" ∧
    isEnrollmentUri (twoFactorSetup sampleRng "JBSWY3DPEHPK3PXP" "iVBORw0KGgoAAAANSUhEUg").qr_code
      = false ∧
    isDataImageUri (twoFactorSetup sampleRng "JBSWY3DPEHPK3PXP" "iVBORw0KGgoAAAANSUhEUg").qr_code
      = true := by
  decide

/-- C5 (amended): setup returns the secret as given (human-transcribable
base32), a backend-rendered QR image as a base64 PNG data URI which the
client displays unchanged, and exactly 10 plaintext backup codes; the
persisted store retains only their salted hashes, so none of the plaintext
codes appears in it. -/
theorem setup_returns_secret_qr_and_ten_codes (rng : Nat → String)
    (hash : String → String) (b32 png : String) (st : TwoFactorSetupState)
    (hnp : ∀ c ∈ generateBackupCodes rng, ∀ c' ∈ generateBackupCodes rng, hash c' ≠ c) :
    (twoFactorSetup rng b32 png).secret = b32 ∧
    (twoFactorSetup rng b32 png).backup_codes.length = 10 ∧
    (twoFactorSetup rng b32 png).qr_code = "data:image/png;base64," ++ png ∧
    renderedQrImageSrc (handleSetup2FAResponse st (twoFactorSetup rng b32 png))
      = (twoFactorSetup rng b32 png).qr_code ∧
    (∀ c ∈ (twoFactorSetup rng b32 png).backup_codes, c ∉ setupStoredHashes hash rng) := by
  refine ⟨rfl, by simp [twoFactorSetup, generateBackupCodes], rfl, rfl, ?_⟩
  intro c hc hmem
  simp only [setupStoredHashes, List.mem_map] at hmem
  obtain ⟨c', hc', hh⟩ := hmem
  exact hnp c hc c' hc' hh

/-- Witness for C5: the concrete setup call returns 10 codes, a data URI,
and stores none of the plaintext codes. -/
theorem setup_returns_secret_qr_and_ten_codes_witness :
    (twoFactorSetup sampleRng "JBSWY3DPEHPK3PXP" "PNGDATA").backup_codes.length = 10 ∧
    (twoFactorSetup sampleRng "JBSWY3DPEHPK3PXP" "PNGDATA").qr_code
      = "data:image/png;base64," ++ "PNGDATA" ∧
    (∀ c ∈ (twoFactorSetup sampleRng "JBSWY3DPEHPK3PXP" "PNGDATA").backup_codes,
      c ∉ setupStoredHashes sampleHash sampleRng) := by
  have w := setup_returns_secret_qr_and_ten_codes sampleRng sampleHash
    "JBSWY3DPEHPK3PXP" "PNGDATA" ⟨1, "", "", []⟩ (by decide)
  exact ⟨w.2.1, w.2.2.1, w.2.2.2.2⟩

/-- C9: after any edit, the verification-code field holds at most 6
characters, all decimal digits, and the enable and disable buttons only
activate when it holds exactly 6 — so no longer or non-numeric code can be
submitted from the settings interface. -/
theorem settings_code_exactly_six_digits (domValue password : String) (loading : Bool) :
    (codeInputChange domValue).length ≤ 6 ∧
    (∀ ch ∈ (codeInputChange domValue).data, ch.isDigit = true) ∧
    (enableButtonEnabled loading (codeInputChange domValue) = true →
      (codeInputChange domValue).length = 6) ∧
    (disableButtonEnabled loading password (codeInputChange domValue) = true →
      (codeInputChange domValue).length = 6) := by
  refine ⟨?_, ?_, ?_, ?_⟩
  · show ((domValue.data.take 6).filter Char.isDigit).length ≤ 6
    calc ((domValue.data.take 6).filter Char.isDigit).length
        ≤ (domValue.data.take 6).length := List.length_filter_le _ _
      _ ≤ 6 := by simp
  · intro ch hch
    exact (List.mem_filter.mp hch).2
  · intro h
    simp only [enableButtonEnabled, Bool.and_eq_true, beq_iff_eq] at h
    exact h.2
  · intro h
    simp only [disableButtonEnabled, Bool.and_eq_true, beq_iff_eq] at h
    exact h.2

/-- Witness for C9: the raw edit 1234567890 is capped to the six digits
123456 and the buttons accept it. -/
theorem settings_code_exactly_six_digits_witness :
    (codeInputChange "1234567890").length ≤ 6 ∧
    (codeInputChange "1234567890").length = 6 :=
  ⟨(settings_code_exactly_six_digits "1234567890" "pw" false).1,
    (settings_code_exactly_six_digits "1234567890" "pw" false).2.2.1 (by decide)⟩

/-- C10: with no token, every declared route renders either the login page or
a redirect to /login (never a panel page), each protected route redirects to
/login, and /login with a token redirects home. -/
theorem unauthenticated_routes_no_panel (path tok : String) :
    (route none path = .loginPage ∨ route none path = .redirect "/login" ∨
      route none path = .noRoute) ∧
    route none "/" = .redirect "/login" ∧
    route none "/servers" = .redirect "/login" ∧
    route none "/nodes" = .redirect "/login" ∧
    route none "/users" = .redirect "/login" ∧
    route none "/settings" = .redirect "/login" ∧
    route (some tok) "/login" = .redirect "/" := by
  refine ⟨?_, rfl, rfl, rfl, rfl, rfl, rfl⟩
  unfold route
  split_ifs <;> simp_all

end ServerCraft
